import Mathlib

/-!
Shallow embedding of the per-call bridging session of `src/index.js`
(the `/knowlarity-media-stream` WebSocket handler bridging a Knowlarity
telephony connection to an ElevenLabs conversational-AI connection).

Pure message handlers are translated as Lean functions over explicit
state; the event-driven session is a step function over a session state,
consuming one inbound event at a time and emitting the sends the source
performs for that event.  JSON messages are modelled by structures whose
fields mirror the JSON keys the source reads or writes; `JSON.parse` of
an inbound frame is modelled by the frame carrying its parse result
(`Option`), since the parser itself is an external library call.
-/

/-- A parsed Knowlarity metadata object, restricted to the fields the
source ever reads (`sampling_rate`, `prompt`, `first_message`); each is
`Option` because the object may omit it (JS `undefined`). Unrecognized
fields are never read by the source and are therefore omitted. -/
structure Metadata where
  sampling_rate : Option String
  prompt : Option String
  first_message : Option String
deriving DecidableEq, Repr

/-- The per-call mutable closure state of the handler in `src/index.js`
(lines 75-76): `let callMetadata = null; let metadataReceived = false`. -/
structure CallSession where
  callMetadata : Option Metadata
  metadataReceived : Bool
deriving DecidableEq, Repr

/-- Initial closure state at connection time (`src/index.js` lines 75-76). -/
def initCallSession : CallSession :=
  { callMetadata := none, metadataReceived := false }

/-- The `audio` sub-object of an ElevenLabs message (`message.audio`). -/
structure AudioField where
  chunk : Option String
deriving DecidableEq, Repr

/-- The `audio_event` sub-object of an ElevenLabs message. -/
structure AudioEventField where
  audio_base_64 : Option String
deriving DecidableEq, Repr

/-- The `ping_event` sub-object of an ElevenLabs message. `event_id` is a
numeric identifier in the upstream schema. -/
structure PingEventField where
  event_id : Option Nat
deriving DecidableEq, Repr

/-- A parsed inbound ElevenLabs message, with exactly the fields the
source's `elevenLabsWs.on('message')` handler reads: `type`,
`audio?.chunk`, `audio_event?.audio_base_64`, `ping_event?.event_id`.
Every field is `Option` because JS property access yields `undefined`
on absent keys. -/
structure AIMessage where
  type : Option String
  audio : Option AudioField
  audio_event : Option AudioEventField
  ping_event : Option PingEventField
deriving DecidableEq, Repr

/-- A JSON command sent to the Knowlarity telephony socket.  The source
builds and sends `playAudio` (lines 124-137) and `disconnect`
(line 143).  `stopAudio` is part of the Knowlarity outbound-command
vocabulary (`\x7b"type":"stopAudio","data":\x7b"reason":...\x7d\x7d`) but is
never constructed by the source; it is present so that theorems can
speak about its (non-)emission. -/
inductive TelephonyCommand where
  | playAudio (audioContentType : String) (sampleRate : Nat) (audioContent : String)
  | stopAudio (reason : String)
  | disconnect
deriving DecidableEq, Repr

/-- A JSON message sent on the ElevenLabs socket: the initiation
configuration sent on open (lines 89-108, carrying the resolved prompt
and first message), the `pong` keepalive reply (lines 148-153), and the
`user_audio_chunk` audio forward (lines 196-199). -/
inductive AIOutMessage where
  | initiationConfig (prompt : String) (firstMessage : String)
  | pong (event_id : Nat)
  | user_audio_chunk (chunk : String)
deriving DecidableEq, Repr

/-- An inbound frame on the Knowlarity socket: a text frame carrying its
JSON parse result (`none` = `JSON.parse` threw), or a binary audio
frame of raw bytes. -/
inductive TelFrame where
  | text (parsed : Option Metadata)
  | binary (bytes : List UInt8)
deriving DecidableEq, Repr

/-- The state of the `elevenLabsWs` handle: `absent` (`null` — the
signed-URL fetch or socket construction failed before assignment),
`connecting` (constructed, not yet open), `opened`
(`readyState === WebSocket.OPEN`), `closed`. -/
inductive AILinkState where
  | absent
  | connecting
  | opened
  | closed
deriving DecidableEq, Repr

/-- Full session state: the closure variables plus the ElevenLabs link
handle state. -/
structure BridgeState where
  session : CallSession
  aiLink : AILinkState
deriving DecidableEq, Repr

/-- An inbound event the session reacts to: a Knowlarity frame, a parsed
ElevenLabs message, the asynchronous ElevenLabs connect steps
(socket construction, then `open`), and the close/error notifications. -/
inductive SessionEvent where
  | fromTelephony (f : TelFrame)
  | fromAI (m : AIMessage)
  | aiSocketCreated
  | aiOpen
  | telephonyClose
  | aiClose
  | aiError
deriving DecidableEq, Repr

/-- An observable action the handlers perform: a send on the telephony
socket, a send on the ElevenLabs socket, or closing a socket.
`closeAI` models `elevenLabsWs.close()` (line 219).  The source never
calls `ws.close()`, so no handler emits `closeTelephony`; the
constructor exists so theorems can state that. -/
inductive OutAction where
  | sendTelephony (c : TelephonyCommand)
  | sendAI (m : AIOutMessage)
  | closeAI
  | closeTelephony
deriving DecidableEq, Repr

/-- JS `a || b` on two possibly-undefined strings: `a` when truthy
(defined and nonempty), else `b`. -/
def jsOr (a b : Option String) : Option String :=
  match a with
  | some s => if s = "" then b else some s
  | none => b

/-- JS `a || d` with a string default: the default when `a` is absent or
falsy (empty). Used for `callMetadata?.prompt || '...'` (line 98) and
`callMetadata?.first_message || '...'` (lines 100-102). -/
def jsOrDefault (a : Option String) (d : String) : String :=
  match a with
  | some s => if s = "" then d else s
  | none => d

/-- The base64 alphabet. -/
def base64Table : Array Char :=
  #['A','B','C','D','E','F','G','H','I','J','K','L','M','N','O','P',
    'Q','R','S','T','U','V','W','X','Y','Z','a','b','c','d','e','f',
    'g','h','i','j','k','l','m','n','o','p','q','r','s','t','u','v',
    'w','x','y','z','0','1','2','3','4','5','6','7','8','9','+','/']

/-- Character for a 6-bit value. -/
def b64c (n : Nat) : Char := base64Table.getD n 'A'

/-- Standard padded base64 of a byte list, as produced by Node's
`Buffer.prototype.toString('base64')` (line 195). -/
def base64Encode : List UInt8 → String
  | [] => ""
  | [b1] =>
      let n := b1.toNat
      String.mk [b64c (n / 4), b64c ((n % 4) * 16)] ++ "=="
  | [b1, b2] =>
      let n := b1.toNat * 256 + b2.toNat
      String.mk [b64c (n / 1024), b64c ((n / 16) % 64), b64c ((n % 16) * 4)] ++ "="
  | b1 :: b2 :: b3 :: rest =>
      let n := b1.toNat * 65536 + b2.toNat * 256 + b3.toNat
      String.mk [b64c (n / 262144), b64c ((n / 4096) % 64), b64c ((n / 64) % 64),
        b64c (n % 64)] ++ base64Encode rest

/-- The sample-rate expression of the `playAudio` construction
(`src/index.js` lines 128-133):
`callMetadata?.sampling_rate === '16k' ? 16000
 : callMetadata?.sampling_rate === '32k' ? 32000 : 8000`. -/
def sampleRate (callMetadata : Option Metadata) : Nat :=
  if callMetadata.bind Metadata.sampling_rate = some "16k" then 16000
  else if callMetadata.bind Metadata.sampling_rate = some "32k" then 32000
  else 8000

/-- The `elevenLabsWs.on('open')` handler (lines 85-109): builds and
sends the initiation configuration from the current metadata. -/
def elevenLabsOnOpen (callMetadata : Option Metadata) : AIOutMessage :=
  AIOutMessage.initiationConfig
    (jsOrDefault (callMetadata.bind Metadata.prompt) "Botwot customer service")
    (jsOrDefault (callMetadata.bind Metadata.first_message)
      "Hello, how can Botwot help you today?")

/-- The `elevenLabsWs.on('message')` handler (lines 111-163): dispatch
on `message.type`, returning the telephony-bound sends and the
ElevenLabs-bound sends it performs, in order.
  - `'audio'`: `audioPayload = message.audio?.chunk ||
    message.audio_event?.audio_base_64`; if truthy, send `playAudio`
    with content type `raw`, the computed sample rate, and the payload.
  - `'interruption'`: send `disconnect` to Knowlarity (line 143).
  - `'ping'`: if `message.ping_event?.event_id` is truthy, send a
    `pong` echoing it (lines 147-153); a numeric `0` is falsy.
  - anything else: log only. -/
def elevenLabsOnMessage (callMetadata : Option Metadata) (message : AIMessage) :
    List TelephonyCommand × List AIOutMessage :=
  if message.type = some "audio" then
    match jsOr (message.audio.bind AudioField.chunk)
        (message.audio_event.bind AudioEventField.audio_base_64) with
    | some s =>
        if s = "" then ([], [])
        else ([TelephonyCommand.playAudio "raw" (sampleRate callMetadata) s], [])
    | none => ([], [])
  else if message.type = some "interruption" then
    ([TelephonyCommand.disconnect], [])
  else if message.type = some "ping" then
    match message.ping_event.bind PingEventField.event_id with
    | some eid => if eid = 0 then ([], []) else ([], [AIOutMessage.pong eid])
    | none => ([], [])
  else ([], [])

/-- The `ws.on('message')` handler (lines 180-214): the new closure
state and the ElevenLabs-bound sends.
  - text frame while `!metadataReceived`: on parse success store the
    metadata and set the flag; on parse failure log and change nothing;
  - binary frame: if `elevenLabsWs` exists and is `OPEN`, base64-encode
    and send as `user_audio_chunk`; otherwise drop;
  - text frame after metadata: control message, logged only. -/
def wsOnMessage (elevenLabs : AILinkState) (s : CallSession) (frame : TelFrame) :
    CallSession × List AIOutMessage :=
  match frame with
  | TelFrame.text parsed =>
      if s.metadataReceived = false then
        match parsed with
        | some meta => ({ callMetadata := some meta, metadataReceived := true }, [])
        | none => (s, [])
      else (s, [])
  | TelFrame.binary bytes =>
      if elevenLabs = AILinkState.opened then
        (s, [AIOutMessage.user_audio_chunk (base64Encode bytes)])
      else (s, [])

/-- The `ws.on('close')` handler (lines 216-221): close `elevenLabsWs`
iff it exists and is `OPEN`. -/
def wsOnClose (elevenLabs : AILinkState) : List OutAction :=
  if elevenLabs = AILinkState.opened then [OutAction.closeAI] else []

/-- One step of the event-driven session: dispatch one inbound event to
the handler the source registers for it, producing the successor state
and the actions performed, in order.  A message, open, close or error
event on the ElevenLabs socket can only be delivered when the socket
object exists (the source registers those handlers after constructing
it), so such events are no-ops when the link is `absent`. -/
def step (st : BridgeState) (e : SessionEvent) : BridgeState × List OutAction :=
  match e with
  | SessionEvent.fromTelephony f =>
      let r := wsOnMessage st.aiLink st.session f
      ({ st with session := r.1 }, r.2.map OutAction.sendAI)
  | SessionEvent.fromAI m =>
      if st.aiLink = AILinkState.absent then (st, [])
      else
        let r := elevenLabsOnMessage st.session.callMetadata m
        (st, r.1.map OutAction.sendTelephony ++ r.2.map OutAction.sendAI)
  | SessionEvent.aiSocketCreated =>
      if st.aiLink = AILinkState.absent then
        ({ st with aiLink := AILinkState.connecting }, [])
      else (st, [])
  | SessionEvent.aiOpen =>
      if st.aiLink = AILinkState.connecting then
        ({ st with aiLink := AILinkState.opened },
          [OutAction.sendAI (elevenLabsOnOpen st.session.callMetadata)])
      else (st, [])
  | SessionEvent.telephonyClose =>
      if st.aiLink = AILinkState.opened then
        ({ st with aiLink := AILinkState.closed }, wsOnClose st.aiLink)
      else (st, wsOnClose st.aiLink)
  | SessionEvent.aiClose =>
      if st.aiLink = AILinkState.absent then (st, [])
      else ({ st with aiLink := AILinkState.closed }, [])
  | SessionEvent.aiError => (st, [])

/-- Run the session over a sequence of inbound events, concatenating the
actions in order (per-session handling is sequential: each event's
handler runs to completion before the next event is processed). -/
def run (st : BridgeState) : List SessionEvent → BridgeState × List OutAction
  | [] => (st, [])
  | e :: es =>
      let r1 := step st e
      let r2 := run r1.1 es
      (r2.1, r1.2 ++ r2.2)

/-- Fold of the telephony message handler over a frame sequence,
tracking only the closure state. -/
def runTel (elevenLabs : AILinkState) (s : CallSession) : List TelFrame → CallSession
  | [] => s
  | f :: fs => runTel elevenLabs (wsOnMessage elevenLabs s f).1 fs

/-- Specification-side characterization for claim C4: the first text
frame of the sequence whose JSON parse succeeds, if any. -/
def firstParsedMeta : List TelFrame → Option Metadata
  | [] => none
  | TelFrame.text (some m) :: _ => some m
  | TelFrame.text none :: fs => firstParsedMeta fs
  | TelFrame.binary _ :: fs => firstParsedMeta fs

/-- The telephony frames embedded in an event sequence, in order. -/
def telFramesOf : List SessionEvent → List TelFrame
  | [] => []
  | SessionEvent.fromTelephony f :: es => f :: telFramesOf es
  | _ :: es => telFramesOf es

/-- Session state after the ElevenLabs connect sequence failed
(`src/index.js` lines 172-174): the `catch` only logs, so
`elevenLabsWs` is still `null` and the closure state untouched. -/
def connectFailedState : BridgeState :=
  { session := initCallSession, aiLink := AILinkState.absent }

/-- Metadata carrying a `"16k"` sampling-rate tag. -/
def exMeta16k : Metadata :=
  { sampling_rate := some "16k", prompt := none, first_message := none }

/-- A session whose metadata has been received (tag `"16k"`) and whose
ElevenLabs link is open. -/
def exOpenSt : BridgeState :=
  { session := { callMetadata := some exMeta16k, metadataReceived := true },
    aiLink := AILinkState.opened }

/-- A session with no metadata yet but an open ElevenLabs link. -/
def exOpenNoMetaSt : BridgeState :=
  { session := initCallSession, aiLink := AILinkState.opened }

/-- A parsed `interruption` event. -/
def exInterruptionMsg : AIMessage :=
  { type := some "interruption", audio := none, audio_event := none, ping_event := none }

/-- A parsed `audio` event carrying chunk `"QQ=="` in `audio.chunk`. -/
def exAudioMsg : AIMessage :=
  { type := some "audio", audio := some { chunk := some "QQ==" },
    audio_event := none, ping_event := none }

/-- A parsed `ping` event whose `event_id` is the falsy number `0`. -/
def exPingZeroMsg : AIMessage :=
  { type := some "ping", audio := none, audio_event := none,
    ping_event := some { event_id := some 0 } }

/-- A parsed `ping` event with `event_id = 42`. -/
def exPingMsg : AIMessage :=
  { type := some "ping", audio := none, audio_event := none,
    ping_event := some { event_id := some 42 } }

/-- Handling a message from the ElevenLabs socket never changes the
session state: the `elevenLabsWs.on('message')` handler only sends. -/
theorem step_fromAI_fst (st : BridgeState) (m : AIMessage) :
    (step st (SessionEvent.fromAI m)).1 = st := by
  simp only [step]
  split <;> rfl

/-- Once metadata has been received, no telephony frame changes the
closure state. -/
theorem wsOnMessage_fst_of_received (elevenLabs : AILinkState) (s : CallSession)
    (f : TelFrame) (h : s.metadataReceived = true) :
    (wsOnMessage elevenLabs s f).1 = s := by
  cases f with
  | text parsed => simp [wsOnMessage, h]
  | binary bytes =>
      simp only [wsOnMessage]
      split <;> rfl

/-- A binary frame never changes the closure state. -/
theorem wsOnMessage_binary_fst (elevenLabs : AILinkState) (s : CallSession)
    (bytes : List UInt8) :
    (wsOnMessage elevenLabs s (TelFrame.binary bytes)).1 = s := by
  simp only [wsOnMessage]
  split <;> rfl

/-- When the ElevenLabs socket is not open, no telephony frame produces
a send on it. -/
theorem wsOnMessage_not_opened_snd (elevenLabs : AILinkState) (s : CallSession)
    (f : TelFrame) (h : elevenLabs ≠ AILinkState.opened) :
    (wsOnMessage elevenLabs s f).2 = [] := by
  cases f with
  | text parsed =>
      simp only [wsOnMessage]
      split
      · split <;> rfl
      · rfl
  | binary bytes => simp [wsOnMessage, h]

/-- Once metadata has been received, a whole telephony frame sequence
leaves the closure state unchanged. -/
theorem runTel_of_received (elevenLabs : AILinkState) (fs : List TelFrame)
    (s : CallSession) (h : s.metadataReceived = true) :
    runTel elevenLabs s fs = s := by
  induction fs generalizing s with
  | nil => rfl
  | cons f fs ih =>
      rw [runTel, wsOnMessage_fst_of_received elevenLabs s f h]
      exact ih s h

/-- `runTel` splits over append. -/
theorem runTel_append (elevenLabs : AILinkState) (fs gs : List TelFrame)
    (s : CallSession) :
    runTel elevenLabs s (fs ++ gs) = runTel elevenLabs (runTel elevenLabs s fs) gs := by
  induction fs generalizing s with
  | nil => rfl
  | cons f fs ih =>
      simp only [List.cons_append, runTel]
      exact ih _

/-- Characterization of the closure state reached from an
un-initialized session: it is determined by the first text frame whose
parse succeeds, and is untouched by everything else. -/
theorem runTel_char (elevenLabs : AILinkState) (fs : List TelFrame)
    (s : CallSession) (h : s.metadataReceived = false) :
    runTel elevenLabs s fs =
      match firstParsedMeta fs with
      | some m => { callMetadata := some m, metadataReceived := true }
      | none => s := by
  induction fs generalizing s with
  | nil => rfl
  | cons f fs ih =>
      cases f with
      | text parsed =>
          cases parsed with
          | some m =>
              rw [runTel]
              simp only [wsOnMessage, h, firstParsedMeta]
              exact runTel_of_received elevenLabs fs _ rfl
          | none =>
              rw [runTel]
              simp only [wsOnMessage, h, firstParsedMeta]
              exact ih s h
      | binary bytes =>
          rw [runTel, wsOnMessage_binary_fst]
          simp only [firstParsedMeta]
          exact ih s h

/-- Run of a session whose ElevenLabs handle is absent, over any event
sequence in which the socket construction never succeeds: no action is
ever performed, the handle stays absent, and the closure state follows
the telephony frames alone. -/
theorem run_absent (es : List SessionEvent) (sess : CallSession)
    (hno : SessionEvent.aiSocketCreated ∉ es) :
    run ⟨sess, AILinkState.absent⟩ es =
      (⟨runTel AILinkState.absent sess (telFramesOf es), AILinkState.absent⟩, []) := by
  induction es generalizing sess with
  | nil => rfl
  | cons e es ih =>
      have hno' : SessionEvent.aiSocketCreated ∉ es := fun h =>
        hno (List.mem_cons_of_mem _ h)
      cases e with
      | fromTelephony f =>
          have hsnd := wsOnMessage_not_opened_snd AILinkState.absent sess f (by decide)
          simp only [run, step, telFramesOf, runTel]
          rw [ih _ hno']
          simp [hsnd]
      | fromAI m =>
          simp only [run, step, telFramesOf]
          simp only [if_true]
          rw [ih _ hno']
          simp
      | aiSocketCreated =>
          exact absurd (List.mem_cons_self _ _) hno
      | aiOpen =>
          simp only [run, step, telFramesOf]
          rw [if_neg (by decide), ih _ hno']
          simp
      | telephonyClose =>
          simp only [run, step, telFramesOf]
          rw [if_neg (by decide), ih _ hno']
          simp [wsOnClose]
      | aiClose =>
          simp only [run, step, telFramesOf]
          simp only [if_true]
          rw [ih _ hno']
          simp
      | aiError =>
          simp only [run, step, telFramesOf]
          rw [ih _ hno']
          simp

/-- Claim C1 counterexample: on an `interruption` event the handler does
NOT send the StopAudio command with reason `userInterruption` that the
claim requires — the single telephony command it sends is `disconnect`
(`src/index.js` line 143). -/
theorem C1_counterexample :
    (step exOpenSt (SessionEvent.fromAI exInterruptionMsg)).2 =
      [OutAction.sendTelephony TelephonyCommand.disconnect] ∧
    OutAction.sendTelephony (TelephonyCommand.stopAudio "userInterruption") ∉
      (step exOpenSt (SessionEvent.fromAI exInterruptionMsg)).2 := by
  decide

/-- Claim C1 (amended): for every AI-service event of type
`interruption` received on the AI link, the handler sends exactly one
`disconnect` command to the telephony link (and no other command on
either link for that event), and leaves the session state — which has
no interrupted flag — unchanged. -/
theorem C1_amended (st : BridgeState) (m : AIMessage)
    (htype : m.type = some "interruption")
    (hlink : st.aiLink ≠ AILinkState.absent) :
    (step st (SessionEvent.fromAI m)).2 =
      [OutAction.sendTelephony TelephonyCommand.disconnect] ∧
    (step st (SessionEvent.fromAI m)).1 = st := by
  refine ⟨?_, step_fromAI_fst st m⟩
  simp only [step, if_neg hlink]
  simp [elevenLabsOnMessage, htype]

/-- Claim C1 witness: the amended claim evaluated on a concrete
interruption event in a live session. -/
theorem C1_witness :
    exInterruptionMsg.type = some "interruption" ∧
    exOpenSt.aiLink ≠ AILinkState.absent ∧
    ((step exOpenSt (SessionEvent.fromAI exInterruptionMsg)).2 =
        [OutAction.sendTelephony TelephonyCommand.disconnect] ∧
      (step exOpenSt (SessionEvent.fromAI exInterruptionMsg)).1 = exOpenSt) :=
  ⟨by decide, by decide, C1_amended exOpenSt exInterruptionMsg (by decide) (by decide)⟩

/-- Claim C2 counterexample: the code keeps no interrupted flag, so the
gating the claim requires does not exist.  Concretely, after an
`interruption` event a subsequent `audio` event still produces a
`playAudio` command, and a subsequent telephony binary frame is still
forwarded to the AI link as `user_audio_chunk`. -/
theorem C2_counterexample :
    (run exOpenSt [SessionEvent.fromAI exInterruptionMsg,
        SessionEvent.fromAI exAudioMsg]).2 =
      [OutAction.sendTelephony TelephonyCommand.disconnect,
       OutAction.sendTelephony (TelephonyCommand.playAudio "raw" 16000 "QQ==")] ∧
    (run exOpenSt [SessionEvent.fromAI exInterruptionMsg,
        SessionEvent.fromTelephony (TelFrame.binary [65])]).2 =
      [OutAction.sendTelephony TelephonyCommand.disconnect,
       OutAction.sendAI (AIOutMessage.user_audio_chunk "QQ==")] := by
  decide

/-- Claim C2 (amended): an `interruption` event leaves the session state
completely unchanged (there is no interrupted flag), so every
subsequent event — `audio` events producing `playAudio`, binary frames
being forwarded — is processed exactly as if the interruption had never
occurred. -/
theorem C2_amended (st : BridgeState) (m : AIMessage) (e : SessionEvent)
    (_htype : m.type = some "interruption") :
    step (step st (SessionEvent.fromAI m)).1 e = step st e := by
  rw [step_fromAI_fst]

/-- Claim C2 witness: the amended claim evaluated on a concrete
interruption followed by a concrete audio event. -/
theorem C2_witness :
    exInterruptionMsg.type = some "interruption" ∧
    step (step exOpenSt (SessionEvent.fromAI exInterruptionMsg)).1
        (SessionEvent.fromAI exAudioMsg) =
      step exOpenSt (SessionEvent.fromAI exAudioMsg) :=
  ⟨by decide,
   C2_amended exOpenSt exInterruptionMsg (SessionEvent.fromAI exAudioMsg) (by decide)⟩

/-- Claim C3: for an `audio` event whose payload (taken from
`audio.chunk` or else `audio_event.audio_base_64`) is a truthy string,
the handler sends exactly one `playAudio` command carrying content type
`raw`, the unmodified chunk, and the sample rate computed from the
session metadata's `sampling_rate` tag; that computation maps `"16k"`
to 16000, `"32k"` to 32000, and anything else — including absent
metadata or an absent tag — to 8000. -/
theorem C3_conf (st : BridgeState) (m : AIMessage) (s : String)
    (htype : m.type = some "audio")
    (hpay : jsOr (m.audio.bind AudioField.chunk)
        (m.audio_event.bind AudioEventField.audio_base_64) = some s)
    (hs : s ≠ "")
    (hlink : st.aiLink ≠ AILinkState.absent) :
    (step st (SessionEvent.fromAI m)).2 =
      [OutAction.sendTelephony (TelephonyCommand.playAudio "raw"
        (sampleRate st.session.callMetadata) s)] ∧
    (st.session.callMetadata.bind Metadata.sampling_rate = some "16k" →
      sampleRate st.session.callMetadata = 16000) ∧
    (st.session.callMetadata.bind Metadata.sampling_rate = some "32k" →
      sampleRate st.session.callMetadata = 32000) ∧
    (st.session.callMetadata.bind Metadata.sampling_rate ≠ some "16k" →
      st.session.callMetadata.bind Metadata.sampling_rate ≠ some "32k" →
      sampleRate st.session.callMetadata = 8000) := by
  refine ⟨?_, ?_, ?_, ?_⟩
  · simp only [step, if_neg hlink]
    simp [elevenLabsOnMessage, htype, hpay, hs]
  · intro h; simp [sampleRate, h]
  · intro h; simp [sampleRate, h]
  · intro h1 h2; simp [sampleRate, h1, h2]

/-- Claim C3 witness: a concrete audio event in a session whose
metadata tag is `"16k"`; the emitted command carries sample rate 16000,
content type `raw`, and the unmodified chunk. -/
theorem C3_witness :
    exAudioMsg.type = some "audio" ∧
    jsOr (exAudioMsg.audio.bind AudioField.chunk)
        (exAudioMsg.audio_event.bind AudioEventField.audio_base_64) = some "QQ==" ∧
    sampleRate exOpenSt.session.callMetadata = 16000 ∧
    (step exOpenSt (SessionEvent.fromAI exAudioMsg)).2 =
      [OutAction.sendTelephony (TelephonyCommand.playAudio "raw"
        (sampleRate exOpenSt.session.callMetadata) "QQ==")] :=
  ⟨by decide, by decide, by decide,
   (C3_conf exOpenSt exAudioMsg "QQ==" (by decide) (by decide) (by decide) (by decide)).1⟩

/-- Concrete frame sequence for the C4 witness: a malformed text frame,
a binary frame, then a parsing text frame. -/
def exFrames : List TelFrame :=
  [TelFrame.text none, TelFrame.binary [65], TelFrame.text (some exMeta16k)]

/-- Concrete follow-up frames for the C4 witness: a later text frame
that parses to different metadata. -/
def exMeta32k : Metadata :=
  { sampling_rate := some "32k", prompt := none, first_message := none }

/-- Concrete follow-up frame list for the C4 witness. -/
def exFrames2 : List TelFrame :=
  [TelFrame.text (some exMeta32k)]

/-- Claim C4: over any telephony frame sequence from a fresh session,
`callMetadata` and `metadataReceived` are determined by the first text
frame that parses as JSON (so they are assigned at most once, and
`metadataReceived` goes false→true at most once), and once such a frame
has occurred, any further frames — in particular later text frames,
which are treated as control messages — leave the state untouched and
never overwrite the metadata. -/
theorem C4_conf (elevenLabs : AILinkState) (fs gs : List TelFrame)
    (h : (firstParsedMeta fs).isSome = true) :
    (runTel elevenLabs initCallSession fs).callMetadata = firstParsedMeta fs ∧
    (runTel elevenLabs initCallSession fs).metadataReceived =
      (firstParsedMeta fs).isSome ∧
    runTel elevenLabs initCallSession (fs ++ gs) =
      runTel elevenLabs initCallSession fs := by
  obtain ⟨m, hm⟩ := Option.isSome_iff_exists.mp h
  have hchar := runTel_char elevenLabs fs initCallSession rfl
  rw [hm] at hchar
  refine ⟨?_, ?_, ?_⟩
  · rw [hchar, hm]
  · rw [hchar, hm]
    rfl
  · rw [runTel_append, hchar]
    exact runTel_of_received elevenLabs gs _ rfl

/-- Claim C4 witness: a malformed frame, a binary frame, then a parsing
frame assign the metadata; a later text frame does not overwrite it. -/
theorem C4_witness :
    (firstParsedMeta exFrames).isSome = true ∧
    ((runTel AILinkState.opened initCallSession exFrames).callMetadata =
        firstParsedMeta exFrames ∧
      (runTel AILinkState.opened initCallSession exFrames).metadataReceived =
        (firstParsedMeta exFrames).isSome ∧
      runTel AILinkState.opened initCallSession (exFrames ++ exFrames2) =
        runTel AILinkState.opened initCallSession exFrames) :=
  ⟨by decide, C4_conf AILinkState.opened exFrames exFrames2 (by decide)⟩

/-- Claim C5 counterexample: a `ping` event carrying the numeric
`event_id` 0 produces NO reply, because the source guards the pong on
the truthiness of `message.ping_event?.event_id` (`src/index.js`
line 147) and the number 0 is falsy in JS. -/
theorem C5_counterexample :
    exPingZeroMsg.type = some "ping" ∧
    exPingZeroMsg.ping_event.bind PingEventField.event_id = some 0 ∧
    (step exOpenSt (SessionEvent.fromAI exPingZeroMsg)).2 = [] := by
  decide

/-- Claim C5 (amended): for every `ping` event carrying a truthy (i.e.
nonzero) `event_id = X`, the handler sends exactly one
`pong` echoing `X` on the AI link, and that reply precedes every
outbound message triggered by later events. -/
theorem C5_amended (st : BridgeState) (m : AIMessage) (x : Nat)
    (es : List SessionEvent)
    (htype : m.type = some "ping")
    (hx : m.ping_event.bind PingEventField.event_id = some x)
    (h0 : x ≠ 0)
    (hlink : st.aiLink ≠ AILinkState.absent) :
    (step st (SessionEvent.fromAI m)).2 = [OutAction.sendAI (AIOutMessage.pong x)] ∧
    (run st (SessionEvent.fromAI m :: es)).2 =
      OutAction.sendAI (AIOutMessage.pong x) :: (run st es).2 := by
  have h1 : (step st (SessionEvent.fromAI m)).2 =
      [OutAction.sendAI (AIOutMessage.pong x)] := by
    simp only [step, if_neg hlink]
    simp [elevenLabsOnMessage, htype, hx, h0]
  refine ⟨h1, ?_⟩
  simp only [run]
  rw [step_fromAI_fst, h1]
  rfl

/-- Claim C5 witness: a concrete ping with `event_id = 42`, followed by
a later audio event; the pong precedes the later playAudio output. -/
theorem C5_witness :
    exPingMsg.type = some "ping" ∧
    exPingMsg.ping_event.bind PingEventField.event_id = some 42 ∧
    (42 : Nat) ≠ 0 ∧
    ((step exOpenSt (SessionEvent.fromAI exPingMsg)).2 =
        [OutAction.sendAI (AIOutMessage.pong 42)] ∧
      (run exOpenSt (SessionEvent.fromAI exPingMsg ::
          [SessionEvent.fromAI exAudioMsg])).2 =
        OutAction.sendAI (AIOutMessage.pong 42) ::
          (run exOpenSt [SessionEvent.fromAI exAudioMsg]).2) :=
  ⟨by decide, by decide, by decide,
   C5_amended exOpenSt exPingMsg 42 [SessionEvent.fromAI exAudioMsg]
     (by decide) (by decide) (by decide) (by decide)⟩

/-- Concrete event sequence for the C7 witness: metadata, caller audio,
then the caller hangs up — with the AI link never established. -/
def exC7Events : List SessionEvent :=
  [SessionEvent.fromTelephony (TelFrame.text (some exMeta16k)),
   SessionEvent.fromTelephony (TelFrame.binary [65]),
   SessionEvent.telephonyClose]

/-- Claim C7: when the signed-URL fetch or AI connection attempt fails,
the handle stays `null` forever (no retry); over any subsequent event
sequence in which the socket construction never succeeds, the session
performs no sends at all — no `playAudio` is ever produced and every
caller-audio forwarding attempt is a no-op — it never closes the
telephony socket, and the telephony connection keeps accepting frames,
its closure state evolving exactly by the telephony state machine. -/
theorem C7_conf (es : List SessionEvent)
    (hno : SessionEvent.aiSocketCreated ∉ es) :
    (run connectFailedState es).1.aiLink = AILinkState.absent ∧
    (run connectFailedState es).2 = [] ∧
    (run connectFailedState es).1.session =
      runTel AILinkState.absent initCallSession (telFramesOf es) := by
  have h := run_absent es initCallSession hno
  rw [show connectFailedState = (⟨initCallSession, AILinkState.absent⟩ : BridgeState)
    from rfl, h]
  exact ⟨rfl, rfl, rfl⟩

/-- Claim C7 witness: a concrete telephony-only session (metadata,
audio, hangup) after a failed AI connect produces no output at all and
still records the metadata. -/
theorem C7_witness :
    SessionEvent.aiSocketCreated ∉ exC7Events ∧
    ((run connectFailedState exC7Events).1.aiLink = AILinkState.absent ∧
      (run connectFailedState exC7Events).2 = [] ∧
      (run connectFailedState exC7Events).1.session =
        runTel AILinkState.absent initCallSession (telFramesOf exC7Events)) :=
  ⟨by decide, C7_conf exC7Events (by decide)⟩

/-- Claim C8: closing the telephony socket closes the AI link iff that
link is open; when the AI link closes or errors the handlers perform no
action at all (in particular the telephony socket is left open), and a
`closeAI` is performed exactly on a telephony close with an open AI
link — closure cascades only in the telephony-to-AI direction, and no
handler ever closes the telephony socket. -/
theorem C8_conf (st : BridgeState) (e : SessionEvent) :
    ((step st SessionEvent.telephonyClose).2 =
      if st.aiLink = AILinkState.opened then [OutAction.closeAI] else []) ∧
    ((step st SessionEvent.aiClose).2 = []) ∧
    ((step st SessionEvent.aiError).2 = []) ∧
    (OutAction.closeAI ∈ (step st e).2 ↔
      e = SessionEvent.telephonyClose ∧ st.aiLink = AILinkState.opened) ∧
    OutAction.closeTelephony ∉ (step st e).2 := by
  refine ⟨?_, ?_, ?_, ?_, ?_⟩
  · simp only [step]
    split
    · next h => simp [wsOnClose, h]
    · next h => simp [wsOnClose, h]
  · simp only [step]
    split <;> rfl
  · rfl
  · cases e <;> simp [step, wsOnClose] <;> split <;> simp_all
  · cases e <;> simp [step, wsOnClose] <;> split <;> simp_all

/-- Claim C8 witness: the statement evaluated at a concrete session
with an open AI link and a telephony-close event. -/
theorem C8_witness :
    ((step exOpenSt SessionEvent.telephonyClose).2 =
      if exOpenSt.aiLink = AILinkState.opened then [OutAction.closeAI] else []) ∧
    ((step exOpenSt SessionEvent.aiClose).2 = []) ∧
    ((step exOpenSt SessionEvent.aiError).2 = []) ∧
    (OutAction.closeAI ∈ (step exOpenSt SessionEvent.telephonyClose).2 ↔
      SessionEvent.telephonyClose = SessionEvent.telephonyClose ∧
        exOpenSt.aiLink = AILinkState.opened) ∧
    OutAction.closeTelephony ∉ (step exOpenSt SessionEvent.telephonyClose).2 :=
  C8_conf exOpenSt SessionEvent.telephonyClose

/-- Claim C9: when the first telephony text frame fails to parse as
JSON, the handler leaves the whole session state unchanged (still
awaiting metadata), performs no action — in particular it does not
terminate the connection — and every subsequent event is processed
exactly as if the malformed frame had never arrived. -/
theorem C9_conf (st : BridgeState) (h : st.session.metadataReceived = false) :
    step st (SessionEvent.fromTelephony (TelFrame.text none)) = (st, []) ∧
    ∀ e, step (step st (SessionEvent.fromTelephony (TelFrame.text none))).1 e =
      step st e := by
  have h1 : step st (SessionEvent.fromTelephony (TelFrame.text none)) = (st, []) := by
    simp [step, wsOnMessage, h]
  exact ⟨h1, fun e => by rw [h1]⟩

/-- Claim C9 witness: a malformed first frame on a concrete fresh
session is a complete no-op. -/
theorem C9_witness :
    exOpenNoMetaSt.session.metadataReceived = false ∧
    step exOpenNoMetaSt (SessionEvent.fromTelephony (TelFrame.text none)) =
      (exOpenNoMetaSt, []) :=
  ⟨by decide, (C9_conf exOpenNoMetaSt (by decide)).1⟩

/-- Claim C10: a telephony binary frame arriving while the ElevenLabs
socket is open is base64-encoded and forwarded as a `user_audio_chunk`
— for every session state with an open link, including those where no
metadata has been received — while for any state whose link is not
open the frame is dropped; forwarding is gated only on the socket being
open, never on metadata. -/
theorem C10_conf (st st2 : BridgeState) (bytes : List UInt8)
    (hopen : st.aiLink = AILinkState.opened)
    (hnot : st2.aiLink ≠ AILinkState.opened) :
    (step st (SessionEvent.fromTelephony (TelFrame.binary bytes))).2 =
      [OutAction.sendAI (AIOutMessage.user_audio_chunk (base64Encode bytes))] ∧
    (step st (SessionEvent.fromTelephony (TelFrame.binary bytes))).1 = st ∧
    (step st2 (SessionEvent.fromTelephony (TelFrame.binary bytes))).2 = [] := by
  refine ⟨?_, ?_, ?_⟩
  · simp [step, wsOnMessage, hopen]
  · simp only [step]
    rw [wsOnMessage_binary_fst]
  · simp only [step]
    rw [wsOnMessage_not_opened_snd st2.aiLink st2.session _ hnot]
    rfl

/-- Claim C10 witness: a concrete byte frame forwarded in a session
with an open AI link but NO metadata yet (`metadataReceived = false`),
and dropped in a session whose link never opened; the encoding of byte
65 is the base64 string `"QQ=="`. -/
theorem C10_witness :
    exOpenNoMetaSt.aiLink = AILinkState.opened ∧
    exOpenNoMetaSt.session.metadataReceived = false ∧
    connectFailedState.aiLink ≠ AILinkState.opened ∧
    base64Encode [65] = "QQ==" ∧
    ((step exOpenNoMetaSt (SessionEvent.fromTelephony (TelFrame.binary [65]))).2 =
        [OutAction.sendAI (AIOutMessage.user_audio_chunk (base64Encode [65]))] ∧
      (step exOpenNoMetaSt (SessionEvent.fromTelephony (TelFrame.binary [65]))).1 =
        exOpenNoMetaSt ∧
      (step connectFailedState (SessionEvent.fromTelephony (TelFrame.binary [65]))).2 =
        []) :=
  ⟨by decide, by decide, by decide, by decide,
   C10_conf exOpenNoMetaSt connectFailedState [65] (by decide) (by decide)⟩
